import Mathlib

/-!
Shallow embedding of `rule_engine/builtins.py`: the builtin symbol table
(`Builtins`), the generator wrapper (`BuiltinValueGenerator`, modelled by the
`Producer` payload of `PyVal.generator`), the module-level helper functions
`_builtin_map` / `_builtin_filter`, and the default-table builder
`Builtins.from_defaults`.

Python dictionaries are modelled as association lists (`List (String × α)`)
with first-match lookup; `dict.update` is `dictUpdate`.  Python object
identity for freshly constructed child tables is modelled by an allocation
counter threaded through `__getitem__`: each constructor call consumes the
counter and stamps it into the new table's `objId` field.  The ambient world
(the system clock read by `datetime.datetime.now`) is an explicit `Env`
parameter.
-/

namespace RuleEngine

/-- Timezone references (`datetime.tzinfo` values).  `tzlocal` models
`dateutil.tz.tzlocal()`, the default used by `Builtins.__init__` when no
timezone is supplied. -/
inductive Timezone where
  | tzlocal
  | utc
  | fixedOffset (minutes : Int)
  | named (nm : String)
deriving DecidableEq, Repr

/-- A `datetime.datetime` value: calendar fields, time-of-day fields and an
attached timezone. -/
structure DateTime where
  year : Nat
  month : Nat
  day : Nat
  hour : Nat
  minute : Nat
  second : Nat
  microsecond : Nat
  tzinfo : Timezone
deriving DecidableEq, Repr

/-- Models `dt.replace(hour=0, minute=0, second=0, microsecond=0)` as used by
the `today` default generator. -/
def DateTime.replaceMidnight (dt : DateTime) : DateTime :=
  { dt with hour := 0, minute := 0, second := 0, microsecond := 0 }

/-- Failures that can escape the builtins module.  `undefinedSymbol` is the
failure raised when a name is absent from the backing mapping (the `KeyError`
of `self.__values[name]`, which the spec calls `UndefinedSymbol`);
`malformedLiteral` is the external parsers' rejection; `typeError` and
`producerError` model arbitrary exceptions raised inside caller-supplied code
(producers or functions). -/
inductive Err where
  | undefinedSymbol (nm : String)
  | malformedLiteral (text : String)
  | typeError (msg : String)
  | producerError (msg : String)
deriving DecidableEq, Repr

/-- The externally defined type enumeration `ast.DataType`, as referenced by
this module: scalar tags, the parametrized `ARRAY(valueType)` (bare `ARRAY`
is `ARRAY Option.none`) and the parametrized
`FUNCTION(name, return_type, argument_types)` (bare `FUNCTION`, used as an
argument type, has all three fields `Option.none`). -/
inductive DataType where
  | UNDEFINED
  | FLOAT
  | BOOLEAN
  | STRING
  | DATETIME
  | TIMEDELTA
  | ARRAY (valueType : Option DataType)
  | FUNCTION (fname : Option String) (returnType : Option DataType)
      (argumentTypes : Option (List DataType))

/-- Tags naming the plain-callable values stored in the table.  `.map` and
`.filter` denote the module-level `_builtin_map` and `_builtin_filter`
defined below; `.any`, `.all` and `.sum` denote the Python builtins modelled
below by `pyAny`, `pyAll` and `pySum`; `.parse_timedelta` denotes the
external duration parser; `.parse_datetime_bound tz` denotes
`functools.partial(_builtin_parse_datetime, builtins)` for a table whose
timezone is `tz`. -/
inductive FnName where
  | any
  | all
  | sum
  | map
  | filter
  | parse_timedelta
  | parse_datetime_bound (tz : Timezone)
deriving DecidableEq, Repr

mutual
/-- Python runtime values as seen by `Builtins.__getitem__`.  `generator`
is a `BuiltinValueGenerator` wrapping a producer; `mapping` is a
`collections.abc.Mapping` instance; `mappingGenerator` is an instance of a
class deriving from both `collections.abc.Mapping` and
`BuiltinValueGenerator` (possible in Python through multiple inheritance, and
needed to settle which `isinstance` check wins); `func` is a plain callable
that is not a `BuiltinValueGenerator`. -/
inductive PyVal where
  | none_
  | bool (b : Bool)
  | int (n : Int)
  | dec (mantissa : Int) (exponent : Int)
  | str (s : String)
  | datetime (dt : DateTime)
  | timedelta (seconds : Int)
  | list (xs : List PyVal)
  | func (f : FnName)
  | generator (p : Producer)
  | mapping (entries : List (String × PyVal))
  | mappingGenerator (entries : List (String × PyVal)) (p : Producer)

/-- Defunctionalized producers: the callables wrapped in
`BuiltinValueGenerator`.  `now`, `today` and `parseDatetimePartial` are the
three producers installed by `from_defaults`; `pureVal` is a caller-supplied
producer ignoring its argument and returning a fixed value; `raise` is a
caller-supplied producer that raises; `readNamespaceOf` is a caller-supplied
producer that reads the namespace of the table it is invoked with. -/
inductive Producer where
  | now
  | today
  | parseDatetimePartial
  | pureVal (v : PyVal)
  | raise (e : Err)
  | readNamespaceOf
end

/-- Models Python's `isinstance(value, collections.abc.Mapping)`. -/
def PyVal.isMapping : PyVal → Bool
  | .mapping _ => true
  | .mappingGenerator _ _ => true
  | _ => false

/-- Models Python's `isinstance(value, BuiltinValueGenerator)`. -/
def PyVal.isGenerator : PyVal → Bool
  | .generator _ => true
  | .mappingGenerator _ _ => true
  | _ => false

/-- Models Python's `callable(value)`: the function values, and every
`BuiltinValueGenerator` (the class defines `__call__`). -/
def PyVal.isCallable : PyVal → Bool
  | .func _ => true
  | .generator _ => true
  | .mappingGenerator _ _ => true
  | _ => false

/-- The key-value entries of a mapping-shaped value (the dictionary passed to
the child-table constructor in the nested-namespace branch). -/
def PyVal.mappingEntries : PyVal → List (String × PyVal)
  | .mapping es => es
  | .mappingGenerator es _ => es
  | _ => []

/-- The symbol table `Builtins`.  Fields mirror the attributes set by
`Builtins.__init__`: the backing value mapping `self.__values`, the type map
`self.__value_types`, `self.namespace` and `self.timezone`.  `objId` models
Python object identity (each constructor call stamps a fresh one). -/
structure Builtins where
  values : List (String × PyVal)
  value_types : List (String × DataType)
  namespace_ : Option String
  timezone : Timezone
  objId : Nat

/-- The ambient world: `nowIn tz` is what `datetime.datetime.now(tz=tz)`
returns at the current instant.  A single `Env` value stands for one instant,
so two resolutions against the same `Env` are simultaneous. -/
structure Env where
  nowIn : Timezone → DateTime

/-- Models `Builtins.__init__`: `value_types` defaults to `{}` when absent or
falsy, `timezone` defaults to `dateutil.tz.tzlocal()` when absent.  `objId`
is the identity stamped on the freshly allocated object. -/
def Builtins.construct (objId : Nat) (values : List (String × PyVal))
    (namespace_ : Option String) (timezone : Option Timezone)
    (value_types : Option (List (String × DataType))) : Builtins :=
  { values := values
    value_types := value_types.getD []
    namespace_ := namespace_
    timezone := timezone.getD Timezone.tzlocal
    objId := objId }

/-- Models `Builtins.resolve_type`: `self.__value_types.get(name,
ast.DataType.UNDEFINED)`. -/
def Builtins.resolve_type (self : Builtins) (nm : String) : DataType :=
  (self.value_types.lookup nm).getD DataType.UNDEFINED

/-- The namespace computed for a child table in `__getitem__`: `name` when
`self.namespace is None`, else `self.namespace + '.' + name`. -/
def joinNamespace : Option String → String → String
  | Option.none, nm => nm
  | Option.some p, nm => p ++ "." ++ nm

/-- The semantics of the wrapped producers: `BuiltinValueGenerator.__call__`
applied to the owning table.  `now` reads the clock in the table's timezone;
`today` is `now(builtins).replace(hour=0, minute=0, second=0, microsecond=0)`;
`parseDatetimePartial` returns `functools.partial(_builtin_parse_datetime,
builtins)`, a plain callable bound to the table's timezone. -/
def runProducer (env : Env) (p : Producer) (self : Builtins) : Except Err PyVal :=
  match p with
  | .now => Except.ok (PyVal.datetime (env.nowIn self.timezone))
  | .today => Except.ok (PyVal.datetime ((env.nowIn self.timezone).replaceMidnight))
  | .parseDatetimePartial =>
      Except.ok (PyVal.func (FnName.parse_datetime_bound self.timezone))
  | .pureVal v => Except.ok v
  | .raise e => Except.error e
  | .readNamespaceOf =>
      Except.ok (match self.namespace_ with
        | Option.none => PyVal.none_
        | Option.some s => PyVal.str s)

/-- Result of one lookup: either a freshly constructed child `Builtins`
table (the nested-mapping branch) or a plain value. -/
inductive LookupResult where
  | table (t : Builtins)
  | value (v : PyVal)

/-- Models `Builtins.__getitem__`.  `self.__values[name]` raises `KeyError`
(spec: `UndefinedSymbol`) when absent.  A mapping-shaped entry yields
`self.__class__(value, namespace=namespace, timezone=self.timezone)` — a
fresh child table stamped with the current allocation counter, carrying an
empty type map; a `BuiltinValueGenerator` entry is invoked with `self`;
everything else is returned unchanged.  Returns the result together with the
next allocation counter. -/
def Builtins.getitem (self : Builtins) (env : Env) (alloc : Nat) (nm : String) :
    Except Err (LookupResult × Nat) :=
  match self.values.lookup nm with
  | Option.none => Except.error (Err.undefinedSymbol nm)
  | Option.some value =>
    if value.isMapping then
      Except.ok (LookupResult.table
        { values := value.mappingEntries
          value_types := []
          namespace_ := Option.some (joinNamespace self.namespace_ nm)
          timezone := self.timezone
          objId := alloc }, alloc + 1)
    else if value.isCallable && value.isGenerator then
      match value with
      | PyVal.generator p =>
          (runProducer env p self).map (fun v => (LookupResult.value v, alloc))
      | _ => Except.ok (LookupResult.value value, alloc)
    else
      Except.ok (LookupResult.value value, alloc)

/-- Python's truthiness (`bool(v)`), as used by `filter`, `any` and `all`:
`None`, `False`, numeric zero and empty containers are falsy. -/
def truthy : PyVal → Bool
  | .none_ => false
  | .bool b => b
  | .int n => n != 0
  | .dec m _ => m != 0
  | .str s => s != ""
  | .datetime _ => true
  | .timedelta s => s != 0
  | .list xs => !xs.isEmpty
  | .func _ => true
  | .generator _ => true
  | .mapping es => !es.isEmpty
  | .mappingGenerator es _ => !es.isEmpty

/-- Python numeric addition restricted to the shapes `sum` can meet here:
booleans count as 0/1, integers add, and `Decimal` values add after aligning
their base-10 exponents. -/
def pyAdd : PyVal → PyVal → Except Err PyVal
  | .int a, .int b => Except.ok (PyVal.int (a + b))
  | .int a, .bool b => Except.ok (PyVal.int (a + (if b then 1 else 0)))
  | .bool a, .int b => Except.ok (PyVal.int ((if a then 1 else 0) + b))
  | .bool a, .bool b =>
      Except.ok (PyVal.int ((if a then 1 else 0) + (if b then 1 else 0)))
  | .dec m e, .int b =>
      if e ≤ 0 then
        Except.ok (PyVal.dec (m + b * (10 : Int) ^ (0 - e).toNat) e)
      else
        Except.ok (PyVal.dec (m * (10 : Int) ^ e.toNat + b) 0)
  | .int a, .dec m e =>
      if e ≤ 0 then
        Except.ok (PyVal.dec (a * (10 : Int) ^ (0 - e).toNat + m) e)
      else
        Except.ok (PyVal.dec (a + m * (10 : Int) ^ e.toNat) 0)
  | .dec m1 e1, .dec m2 e2 =>
      if e1 ≤ e2 then
        Except.ok (PyVal.dec (m1 + m2 * (10 : Int) ^ (e2 - e1).toNat) e1)
      else
        Except.ok (PyVal.dec (m1 * (10 : Int) ^ (e1 - e2).toNat + m2) e2)
  | _, _ => Except.error (Err.typeError "unsupported operand type for +")

/-- Python's builtin `sum(iterable)` with the default start value `0`: a left
fold of `+` starting from the integer `0`. -/
def pySum (xs : List PyVal) : Except Err PyVal :=
  xs.foldlM pyAdd (PyVal.int 0)

/-- Python's builtin `all(iterable)`: `True` iff every element is truthy
(vacuously `True` on the empty sequence). -/
def pyAll (xs : List PyVal) : PyVal :=
  PyVal.bool (xs.all truthy)

/-- Python's builtin `any(iterable)`: `True` iff some element is truthy
(`False` on the empty sequence). -/
def pyAny (xs : List PyVal) : PyVal :=
  PyVal.bool (xs.any truthy)

/-- Models `_builtin_map(function, iterable) = tuple(map(function, iterable))`:
apply `function` to each element left to right, materializing the results in
order; any exception from `function` propagates. -/
def _builtin_map (function : PyVal → Except Err PyVal) :
    List PyVal → Except Err (List PyVal)
  | [] => Except.ok []
  | x :: xs => do
    let y ← function x
    let rest ← _builtin_map function xs
    Except.ok (y :: rest)

/-- Models `_builtin_filter(function, iterable) = tuple(filter(function,
iterable))`: keep, in order, the elements on which `function` returns a
truthy value; any exception from `function` propagates. -/
def _builtin_filter (function : PyVal → Except Err PyVal) :
    List PyVal → Except Err (List PyVal)
  | [] => Except.ok []
  | x :: xs => do
    let r ← function x
    let rest ← _builtin_filter function xs
    if truthy r then Except.ok (x :: rest) else Except.ok rest

/-- Models `dict.__setitem__`-style update of an association list: replace
the value at an existing key in place, else append the new binding. -/
def dictSet (d : List (String × α)) (k : String) (v : α) : List (String × α) :=
  if d.any (fun kv => kv.1 == k) then
    d.map (fun kv => match kv.1 == k with | true => (k, v) | false => kv)
  else
    d ++ [(k, v)]

/-- Models Python's `dict.update`: fold the override bindings into the base
dictionary left to right (later duplicates win). -/
def dictUpdate (base overrides : List (String × α)) : List (String × α) :=
  overrides.foldl (fun acc kv => dictSet acc kv.1 kv.2) base

/-- The `default_values` dictionary built by `Builtins.from_defaults`:
`Decimal(repr(math.e))` and `Decimal(repr(math.pi))` are the decimal values
2.718281828459045 and 3.141592653589793; `now`, `today` and `parse_datetime`
are `BuiltinValueGenerator` wrappers; the rest are plain callables. -/
def default_values : List (String × PyVal) :=
  [ ("e", PyVal.dec 2718281828459045 (-15)),
    ("pi", PyVal.dec 3141592653589793 (-15)),
    ("now", PyVal.generator Producer.now),
    ("today", PyVal.generator Producer.today),
    ("any", PyVal.func FnName.any),
    ("all", PyVal.func FnName.all),
    ("sum", PyVal.func FnName.sum),
    ("map", PyVal.func FnName.map),
    ("filter", PyVal.func FnName.filter),
    ("parse_datetime", PyVal.generator Producer.parseDatetimePartial),
    ("parse_timedelta", PyVal.func FnName.parse_timedelta) ]

/-- The `default_value_types` dictionary built by `Builtins.from_defaults`. -/
def default_value_types : List (String × DataType) :=
  [ ("e", DataType.FLOAT),
    ("pi", DataType.FLOAT),
    ("now", DataType.DATETIME),
    ("today", DataType.DATETIME),
    ("all", DataType.FUNCTION (Option.some "all") (Option.some DataType.BOOLEAN)
      (Option.some [DataType.ARRAY Option.none])),
    ("any", DataType.FUNCTION (Option.some "any") (Option.some DataType.BOOLEAN)
      (Option.some [DataType.ARRAY Option.none])),
    ("sum", DataType.FUNCTION (Option.some "sum") (Option.some DataType.FLOAT)
      (Option.some [DataType.ARRAY (Option.some DataType.FLOAT)])),
    ("map", DataType.FUNCTION (Option.some "map") Option.none
      (Option.some [DataType.FUNCTION Option.none Option.none Option.none,
                    DataType.ARRAY Option.none])),
    ("filter", DataType.FUNCTION (Option.some "filter") Option.none
      (Option.some [DataType.FUNCTION Option.none Option.none Option.none,
                    DataType.ARRAY Option.none])),
    ("parse_datetime", DataType.FUNCTION (Option.some "parse_datetime")
      (Option.some DataType.DATETIME) (Option.some [DataType.STRING])),
    ("parse_timedelta", DataType.FUNCTION (Option.some "parse_timedelta")
      (Option.some DataType.TIMEDELTA) (Option.some [DataType.STRING])) ]

/-- Models `Builtins.from_defaults(values, namespace=..., timezone=...,
value_types=...)`: update `default_values` with the supplied value overrides
and `default_value_types` with the supplied type overrides, then construct
the table (with the `__init__` local-timezone default). -/
def Builtins.from_defaults (objId : Nat) (values : List (String × PyVal))
    (value_types : List (String × DataType)) (namespace_ : Option String)
    (timezone : Option Timezone) : Builtins :=
  { values := dictUpdate default_values values
    value_types := dictUpdate default_value_types value_types
    namespace_ := namespace_
    timezone := timezone.getD Timezone.tzlocal
    objId := objId }

/-- Example rule-level function for the spec's `map` test: doubles an
integer. -/
def double (v : PyVal) : Except Err PyVal :=
  match v with
  | .int n => Except.ok (PyVal.int (2 * n))
  | _ => Except.error (Err.typeError "unsupported operand type for *")

/-- Example rule-level predicate for the spec's `filter` test: tests an
integer for evenness. -/
def isEven (v : PyVal) : Except Err PyVal :=
  match v with
  | .int n => Except.ok (PyVal.bool (n % 2 == 0))
  | _ => Except.error (Err.typeError "unsupported operand type for %")

/-- A concrete ambient world used by concrete evaluations: the clock reads
2026-10-12 13:45:30.123456 in whatever timezone is asked for. -/
def testEnv : Env :=
  ⟨fun tz => ⟨2026, 10, 12, 13, 45, 30, 123456, tz⟩⟩

/-- A concrete table whose only entry is a generator whose producer raises. -/
def raisingTable : Builtins :=
  { values := [("x", PyVal.generator (Producer.raise (Err.typeError "boom")))]
    value_types := []
    namespace_ := Option.none
    timezone := Timezone.utc
    objId := 0 }

/-- A concrete table with no entries. -/
def emptyTable : Builtins :=
  { values := []
    value_types := []
    namespace_ := Option.none
    timezone := Timezone.utc
    objId := 0 }

/-- A concrete table holding a nested mapping, a hybrid mapping-and-generator
value, a plain callable and a literal. -/
def nestedTable : Builtins :=
  { values :=
      [ ("ns", PyVal.mapping [("a", PyVal.int 1)]),
        ("hybrid", PyVal.mappingGenerator [("b", PyVal.int 2)]
          (Producer.raise (Err.typeError "never invoked"))),
        ("fn", PyVal.func FnName.sum),
        ("lit", PyVal.int 7) ]
    value_types := [("lit", DataType.FLOAT)]
    namespace_ := Option.some "root"
    timezone := Timezone.fixedOffset 120
    objId := 0 }

/-- A concrete table whose generator's producer returns another
`BuiltinValueGenerator` wrapper. -/
def wrapperReturningTable : Builtins :=
  { values := [("x", PyVal.generator (Producer.pureVal (PyVal.generator Producer.now)))]
    value_types := []
    namespace_ := Option.none
    timezone := Timezone.utc
    objId := 0 }

/-- The default table with no overrides, fixed to UTC. -/
def defaultUtc : Builtins :=
  Builtins.from_defaults 0 [] [] Option.none (Option.some Timezone.utc)

/-- The child table constructed by looking up `ns` in `nestedTable` when the
allocation counter is `k`. -/
def nsChild (k : Nat) : Builtins :=
  { values := [("a", PyVal.int 1)]
    value_types := []
    namespace_ := Option.some "root.ns"
    timezone := Timezone.fixedOffset 120
    objId := k }

/-- Lookup on a missing name models the `KeyError` branch of
`self.__values[name]`. -/
theorem getitem_eq_none {T : Builtins} {n : String} (env : Env) (alloc : Nat)
    (h : T.values.lookup n = Option.none) :
    T.getitem env alloc n = Except.error (Err.undefinedSymbol n) := by
  simp [Builtins.getitem, h]

/-- Lookup on a mapping-shaped entry constructs the child table. -/
theorem getitem_eq_mapping {T : Builtins} {n : String} {v : PyVal} (env : Env) (alloc : Nat)
    (h : T.values.lookup n = Option.some v) (hm : v.isMapping = true) :
    T.getitem env alloc n = Except.ok (LookupResult.table
      { values := v.mappingEntries
        value_types := []
        namespace_ := Option.some (joinNamespace T.namespace_ n)
        timezone := T.timezone
        objId := alloc }, alloc + 1) := by
  simp [Builtins.getitem, h, hm]

/-- Lookup on a generator entry (that is not mapping-shaped) invokes the
wrapped producer with the table itself. -/
theorem getitem_eq_generator {T : Builtins} {n : String} {p : Producer} (env : Env) (alloc : Nat)
    (h : T.values.lookup n = Option.some (PyVal.generator p)) :
    T.getitem env alloc n =
      (runProducer env p T).map (fun v => (LookupResult.value v, alloc)) := by
  simp [Builtins.getitem, h, PyVal.isMapping, PyVal.isCallable, PyVal.isGenerator]

/-- Lookup on an entry that is neither mapping-shaped nor a generator returns
the stored value unchanged. -/
theorem getitem_eq_literal {T : Builtins} {n : String} {v : PyVal} (env : Env) (alloc : Nat)
    (h : T.values.lookup n = Option.some v) (hm : v.isMapping = false)
    (hg : v.isGenerator = false) :
    T.getitem env alloc n = Except.ok (LookupResult.value v, alloc) := by
  simp [Builtins.getitem, h, hm, hg]

/-- A value that is a generator but not mapping-shaped is a plain
`PyVal.generator`. -/
theorem eq_generator_of_not_mapping {v : PyVal} (hm : v.isMapping = false)
    (hg : v.isGenerator = true) : ∃ p, v = PyVal.generator p := by
  cases v <;> simp_all [PyVal.isMapping, PyVal.isGenerator]

/-- C1 (amended): for every table `T` and name `n`, if `n` is absent from the
backing mapping then lookup fails with the `UndefinedSymbol` error for `n`,
propagated unchanged; if `n` is present, the only way lookup can fail is by
propagating the failure of the producer of a stored generator entry — in
particular a present name never fails with `UndefinedSymbol`. -/
theorem C1_lookup_failure_modes (env : Env) (alloc : Nat) (T : Builtins) (n : String) :
    (T.values.lookup n = Option.none →
      T.getitem env alloc n = Except.error (Err.undefinedSymbol n)) ∧
    (∀ v : PyVal, T.values.lookup n = Option.some v →
      ∀ e : Err, T.getitem env alloc n = Except.error e →
        ∃ p : Producer, v = PyVal.generator p ∧ runProducer env p T = Except.error e) := by
  refine ⟨fun h => getitem_eq_none env alloc h, ?_⟩
  intro v hv e he
  by_cases hm : v.isMapping
  · rw [getitem_eq_mapping env alloc hv hm] at he
    exact absurd he (by simp)
  · rw [Bool.not_eq_true] at hm
    by_cases hg : v.isGenerator
    · obtain ⟨p, rfl⟩ := eq_generator_of_not_mapping hm hg
      rw [getitem_eq_generator env alloc hv] at he
      cases hr : runProducer env p T with
      | ok w => rw [hr] at he; exact absurd he (by simp [Except.map])
      | error e2 =>
        rw [hr] at he
        simp only [Except.map, Except.error.injEq] at he
        exact ⟨p, rfl, by rw [hr, he]⟩
    · rw [Bool.not_eq_true] at hg
      rw [getitem_eq_literal env alloc hv hm hg] at he
      exact absurd he (by simp)

/-- C1, counterexample to the claim as stated: in `raisingTable` the name
`x` is present in the backing mapping, yet lookup fails (the stored generator's
producer raises), so "present implies lookup does not fail" is false. -/
theorem C1_counterexample :
    (raisingTable.values.lookup "x").isSome = true ∧
    raisingTable.getitem testEnv 0 "x" = Except.error (Err.typeError "boom") :=
  ⟨rfl, rfl⟩

/-- C1, witness: the amended theorem applied to the empty table at an absent
name, and to `raisingTable` at its failing present name. -/
theorem C1_witness :
    emptyTable.getitem testEnv 0 "y" = Except.error (Err.undefinedSymbol "y") ∧
    ∃ p : Producer,
      PyVal.generator (Producer.raise (Err.typeError "boom")) = PyVal.generator p ∧
      runProducer testEnv p raisingTable = Except.error (Err.typeError "boom") :=
  ⟨(C1_lookup_failure_modes testEnv 0 emptyTable "y").1 rfl,
   (C1_lookup_failure_modes testEnv 0 raisingTable "x").2
     (PyVal.generator (Producer.raise (Err.typeError "boom"))) rfl
     (Err.typeError "boom") rfl⟩

/-- C2: looking up a name bound to a nested mapping returns a freshly
constructed child table stamped with the current allocation counter, whose
namespace path joins the parent's path and the name with a dot (just the name
when the parent has no path), which shares the parent's timezone and carries
an empty type map; threading the allocation counter through two calls yields
child tables with distinct identities. -/
theorem C2_child_table_construction (env : Env) (alloc : Nat) (T : Builtins) (n : String)
    (v : PyVal) (hv : T.values.lookup n = Option.some v) (hm : v.isMapping = true) :
    (T.getitem env alloc n = Except.ok (LookupResult.table
      { values := v.mappingEntries
        value_types := []
        namespace_ := Option.some (joinNamespace T.namespace_ n)
        timezone := T.timezone
        objId := alloc }, alloc + 1)) ∧
    (T.namespace_ = Option.none → joinNamespace T.namespace_ n = n) ∧
    (∀ pth : String, T.namespace_ = Option.some pth →
      joinNamespace T.namespace_ n = pth ++ "." ++ n) ∧
    (∀ (c1 : Builtins) (a1 : Nat) (c2 : Builtins) (a2 : Nat),
      T.getitem env alloc n = Except.ok (LookupResult.table c1, a1) →
      T.getitem env a1 n = Except.ok (LookupResult.table c2, a2) →
      c1.objId ≠ c2.objId ∧ c1 ≠ c2) := by
  refine ⟨getitem_eq_mapping env alloc hv hm,
    fun h => by rw [h, joinNamespace],
    fun pth h => by rw [h, joinNamespace],
    ?_⟩
  intro c1 a1 c2 a2 h1 h2
  rw [getitem_eq_mapping env alloc hv hm] at h1
  simp only [Except.ok.injEq, Prod.mk.injEq, LookupResult.table.injEq] at h1
  obtain ⟨hc1, ha1⟩ := h1
  rw [getitem_eq_mapping env a1 hv hm] at h2
  simp only [Except.ok.injEq, Prod.mk.injEq, LookupResult.table.injEq] at h2
  obtain ⟨hc2, _⟩ := h2
  have hid1 : c1.objId = alloc := by rw [← hc1]
  have hid2 : c2.objId = a1 := by rw [← hc2]
  have hne : c1.objId ≠ c2.objId := by
    rw [hid1, hid2, ← ha1]
    omega
  exact ⟨hne, fun hEq => hne (by rw [hEq])⟩

/-- C2, witness: the theorem applied to `nestedTable` at the nested name
`ns` with allocation counters 5 and 6. -/
theorem C2_witness :
    nestedTable.getitem testEnv 5 "ns" = Except.ok (LookupResult.table (nsChild 5), 6) ∧
    (nsChild 5).objId ≠ (nsChild 6).objId ∧ nsChild 5 ≠ nsChild 6 :=
  ⟨(C2_child_table_construction testEnv 5 nestedTable "ns"
      (PyVal.mapping [("a", PyVal.int 1)]) rfl rfl).1,
   (C2_child_table_construction testEnv 5 nestedTable "ns"
      (PyVal.mapping [("a", PyVal.int 1)]) rfl rfl).2.2.2 (nsChild 5) 6 (nsChild 6) 7 rfl rfl⟩

/-- C3: a stored generator entry is invoked with the owning table itself and
its produced value is returned (successes and failures of the producer both
propagate), while a stored plain callable that is not a generator wrapper is
returned unchanged, without being invoked. -/
theorem C3_generator_vs_plain_callable (env : Env) (alloc : Nat) (T : Builtins) (n : String) :
    (∀ p : Producer, T.values.lookup n = Option.some (PyVal.generator p) →
      T.getitem env alloc n =
        (runProducer env p T).map (fun v => (LookupResult.value v, alloc))) ∧
    (∀ (p : Producer) (v : PyVal), T.values.lookup n = Option.some (PyVal.generator p) →
      runProducer env p T = Except.ok v →
      T.getitem env alloc n = Except.ok (LookupResult.value v, alloc)) ∧
    (∀ (p : Producer) (e : Err), T.values.lookup n = Option.some (PyVal.generator p) →
      runProducer env p T = Except.error e →
      T.getitem env alloc n = Except.error e) ∧
    (∀ f : FnName, T.values.lookup n = Option.some (PyVal.func f) →
      T.getitem env alloc n = Except.ok (LookupResult.value (PyVal.func f), alloc)) := by
  refine ⟨fun p hp => getitem_eq_generator env alloc hp, ?_, ?_, ?_⟩
  · intro p v hp hr
    rw [getitem_eq_generator env alloc hp, hr]
    rfl
  · intro p e hp hr
    rw [getitem_eq_generator env alloc hp, hr]
    rfl
  · intro f hf
    exact getitem_eq_literal env alloc hf rfl rfl

/-- C3, witness: the theorem applied to the default UTC table at `now`
(generator invoked), to `raisingTable` at `x` (producer failure propagated)
and to the default UTC table at `sum` (plain callable returned unchanged). -/
theorem C3_witness :
    defaultUtc.getitem testEnv 1 "now" =
      (runProducer testEnv Producer.now defaultUtc).map
        (fun v => (LookupResult.value v, 1)) ∧
    raisingTable.getitem testEnv 2 "x" = Except.error (Err.typeError "boom") ∧
    defaultUtc.getitem testEnv 3 "sum" =
      Except.ok (LookupResult.value (PyVal.func FnName.sum), 3) :=
  ⟨(C3_generator_vs_plain_callable testEnv 1 defaultUtc "now").1 Producer.now rfl,
   (C3_generator_vs_plain_callable testEnv 2 raisingTable "x").2.2.1
     (Producer.raise (Err.typeError "boom")) (Err.typeError "boom") rfl rfl,
   (C3_generator_vs_plain_callable testEnv 3 defaultUtc "sum").2.2.2 FnName.sum rfl⟩

/-- C4: `resolve_type` is total — it returns the tag recorded in the type map
and the `UNDEFINED` sentinel when none is recorded — and its result does not
depend on the value mapping (nor on the namespace or timezone), so it never
looks at or computes any value. -/
theorem C4_resolve_type_total (T : Builtins) (n : String) :
    T.resolve_type n = (T.value_types.lookup n).getD DataType.UNDEFINED ∧
    (T.value_types.lookup n = Option.none → T.resolve_type n = DataType.UNDEFINED) ∧
    (∀ t : DataType, T.value_types.lookup n = Option.some t → T.resolve_type n = t) ∧
    (∀ (vs : List (String × PyVal)) (ns : Option String) (tz : Timezone) (oid : Nat),
      (Builtins.mk vs T.value_types ns tz oid).resolve_type n = T.resolve_type n) :=
  ⟨rfl,
   fun h => by simp [Builtins.resolve_type, h],
   fun t h => by simp [Builtins.resolve_type, h],
   fun vs ns tz oid => rfl⟩

/-- C4, witness: the theorem applied to `nestedTable` at a recorded name and
at an absent one. -/
theorem C4_witness :
    nestedTable.resolve_type "lit" = DataType.FLOAT ∧
    nestedTable.resolve_type "missing" = DataType.UNDEFINED :=
  ⟨(C4_resolve_type_total nestedTable "lit").2.2.1 DataType.FLOAT rfl,
   (C4_resolve_type_total nestedTable "missing").2.1 rfl⟩

/-- First-match lookup distributes over list append. -/
theorem lookup_append {α : Type} (l1 l2 : List (String × α)) (k : String) :
    (l1 ++ l2).lookup k =
      (match l1.lookup k with
       | Option.some v => Option.some v
       | Option.none => l2.lookup k) := by
  induction l1 with
  | nil => simp [List.lookup]
  | cons kv tl ih =>
    obtain ⟨a, w⟩ := kv
    cases h : (k == a) with
    | true => simp [List.lookup, h]
    | false => simp [List.lookup, h, ih]

/-- A key matching no entry looks up to nothing. -/
theorem lookup_eq_none_of_any_false {α : Type} (d : List (String × α)) (k : String)
    (h : d.any (fun kv => kv.1 == k) = false) : d.lookup k = Option.none := by
  induction d with
  | nil => rfl
  | cons kv tl ih =>
    obtain ⟨a, w⟩ := kv
    simp only [List.any_cons, Bool.or_eq_false_iff] at h
    have hka : (k == a) = false := by
      rcases h with ⟨h1, _⟩
      rw [beq_eq_false_iff_ne] at h1 ⊢
      exact fun hEq => h1 hEq.symm
    simp [List.lookup, hka, ih h.2]

/-- Replacing every binding of `k` by `(k, v)` makes `k` look up to `v`,
provided some entry held `k`. -/
theorem lookup_map_replace {α : Type} (d : List (String × α)) (k : String) (v : α)
    (h : d.any (fun kv => kv.1 == k) = true) :
    (d.map (fun kv => match kv.1 == k with | true => (k, v) | false => kv)).lookup k
      = Option.some v := by
  induction d with
  | nil => simp at h
  | cons kv tl ih =>
    obtain ⟨a, w⟩ := kv
    simp only [List.any_cons, Bool.or_eq_true] at h
    cases hak : (a == k) with
    | true => simp [List.lookup, hak]
    | false =>
      have hka : (k == a) = false := by
        rw [beq_eq_false_iff_ne] at hak ⊢
        exact fun hEq => hak hEq.symm
      have h2 : tl.any (fun kv => kv.1 == k) = true := by
        rcases h with h | h
        · rw [hak] at h
          exact Bool.noConfusion h
        · exact h
      simp [List.lookup, hak, hka, ih h2]

/-- Replacing the bindings of `k` leaves other keys' lookups unchanged. -/
theorem lookup_map_replace_ne {α : Type} (d : List (String × α)) (k k2 : String) (v : α)
    (hne : k2 ≠ k) :
    (d.map (fun kv => match kv.1 == k with | true => (k, v) | false => kv)).lookup k2
      = d.lookup k2 := by
  induction d with
  | nil => rfl
  | cons kv tl ih =>
    obtain ⟨a, w⟩ := kv
    cases hak : (a == k) with
    | true =>
      have hEq : a = k := beq_iff_eq.mp hak
      have h1 : (k2 == k) = false := beq_eq_false_iff_ne.mpr hne
      have h2 : (k2 == a) = false := by rw [hEq]; exact h1
      simp [List.lookup, hak, h1, h2, ih]
    | false =>
      cases h2 : (k2 == a) with
      | true => simp [List.lookup, hak, h2]
      | false => simp [List.lookup, hak, h2, ih]

/-- After `dictSet d k v`, the key `k` looks up to `v`. -/
theorem lookup_dictSet_self {α : Type} (d : List (String × α)) (k : String) (v : α) :
    (dictSet d k v).lookup k = Option.some v := by
  rw [dictSet]
  cases h : d.any (fun kv => kv.1 == k) with
  | true =>
    simp only [if_true]
    exact lookup_map_replace d k v h
  | false =>
    simp only [Bool.false_eq_true, if_false]
    rw [lookup_append, lookup_eq_none_of_any_false d k h]
    simp [List.lookup]

/-- `dictSet d k v` leaves other keys' lookups unchanged. -/
theorem lookup_dictSet_ne {α : Type} (d : List (String × α)) (k k2 : String) (v : α)
    (hne : k2 ≠ k) : (dictSet d k v).lookup k2 = d.lookup k2 := by
  rw [dictSet]
  cases h : d.any (fun kv => kv.1 == k) with
  | true =>
    simp only [if_true]
    exact lookup_map_replace_ne d k k2 v hne
  | false =>
    simp only [Bool.false_eq_true, if_false]
    rw [lookup_append]
    cases hd : d.lookup k2 with
    | some w => rfl
    | none => simp [List.lookup, beq_eq_false_iff_ne.mpr hne]

/-- Updating with bindings that avoid `k` leaves `k`'s lookup unchanged. -/
theorem lookup_dictUpdate_not_mem {α : Type} (base ov : List (String × α)) (k : String)
    (h : ∀ kv ∈ ov, kv.1 ≠ k) :
    (dictUpdate base ov).lookup k = base.lookup k := by
  induction ov generalizing base with
  | nil => rfl
  | cons kv tl ih =>
    rw [dictUpdate, List.foldl_cons]
    rw [show (tl.foldl (fun acc kv => dictSet acc kv.1 kv.2) (dictSet base kv.1 kv.2))
        = dictUpdate (dictSet base kv.1 kv.2) tl from rfl]
    rw [ih (dictSet base kv.1 kv.2) (fun kv2 hm => h kv2 (List.mem_cons_of_mem _ hm))]
    exact lookup_dictSet_ne base kv.1 k kv.2
      (fun hEq => h kv (List.mem_cons_self _ _) (hEq ▸ rfl))

/-- A binding present in the override dictionary (with unambiguous keys) wins
after `dictUpdate`, whatever the base dictionary held. -/
theorem lookup_dictUpdate_of_lookup {α : Type} (base ov : List (String × α))
    (k : String) (v : α)
    (hnd : (ov.map Prod.fst).Nodup) (hv : ov.lookup k = Option.some v) :
    (dictUpdate base ov).lookup k = Option.some v := by
  induction ov generalizing base with
  | nil => exact Option.noConfusion hv
  | cons kv tl ih =>
    obtain ⟨a, w⟩ := kv
    rw [List.map_cons, List.nodup_cons] at hnd
    rw [dictUpdate, List.foldl_cons]
    rw [show (tl.foldl (fun acc kv => dictSet acc kv.1 kv.2) (dictSet base a w))
        = dictUpdate (dictSet base a w) tl from rfl]
    cases hka : (k == a) with
    | true =>
      have hkeq : k = a := beq_iff_eq.mp hka
      have hwv : w = v := by
        rw [List.lookup, hka] at hv
        exact Option.some.inj hv
      have hnot : ∀ kv2 ∈ tl, kv2.1 ≠ k := by
        intro kv2 hm hEq
        have hmem : kv2.1 ∈ tl.map Prod.fst := List.mem_map_of_mem Prod.fst hm
        rw [hEq, hkeq] at hmem
        exact hnd.1 hmem
      rw [lookup_dictUpdate_not_mem _ _ _ hnot, hkeq, hwv]
      exact lookup_dictSet_self base a v
    | false =>
      have hv' : tl.lookup k = Option.some v := by
        rw [List.lookup, hka] at hv
        exact hv
      exact ih (dictSet base a w) hnd.2 hv'

/-- C5: for a default table built with an override value map (with
unambiguous keys), override bindings win on name collision in the value
channel while the recorded type channel is untouched; in particular the
override `e := 5` makes looking up `e` return `5` while `resolve_type`
still reports `FLOAT` — unless an override type map is supplied as well. -/
theorem C5_override_channels_independent (oid alloc : Nat) (env : Env)
    (ov : List (String × PyVal)) (n : String) (v : PyVal)
    (ns : Option String) (tz : Option Timezone)
    (hnd : (ov.map Prod.fst).Nodup) (hv : ov.lookup n = Option.some v) :
    (Builtins.from_defaults oid ov [] ns tz).values.lookup n = Option.some v ∧
    (Builtins.from_defaults oid ov [] ns tz).value_types = default_value_types ∧
    (Builtins.from_defaults oid [("e", PyVal.int 5)] [] ns tz).getitem env alloc "e"
      = Except.ok (LookupResult.value (PyVal.int 5), alloc) ∧
    (Builtins.from_defaults oid [("e", PyVal.int 5)] [] ns tz).resolve_type "e"
      = DataType.FLOAT ∧
    (Builtins.from_defaults oid [("e", PyVal.int 5)]
        [("e", DataType.STRING)] ns tz).resolve_type "e"
      = DataType.STRING :=
  ⟨lookup_dictUpdate_of_lookup default_values ov n v hnd hv, rfl, rfl, rfl, rfl⟩

/-- C5, witness: the theorem applied to the override map `{e: 5}`. -/
theorem C5_witness :
    (Builtins.from_defaults 0 [("e", PyVal.int 5)] [] Option.none
        (Option.some Timezone.utc)).values.lookup "e" = Option.some (PyVal.int 5) ∧
    (Builtins.from_defaults 0 [("e", PyVal.int 5)] [] Option.none
        (Option.some Timezone.utc)).resolve_type "e" = DataType.FLOAT :=
  ⟨(C5_override_channels_independent 0 0 testEnv [("e", PyVal.int 5)] "e" (PyVal.int 5)
      Option.none (Option.some Timezone.utc) (by simp) rfl).1,
   (C5_override_channels_independent 0 0 testEnv [("e", PyVal.int 5)] "e" (PyVal.int 5)
      Option.none (Option.some Timezone.utc) (by simp) rfl).2.2.2.1⟩

/-- C6: on a default table with a fixed timezone, resolving `today` yields a
timestamp with zeroed hour, minute, second and microsecond fields, in the
same timezone as `now`'s result, and sharing its calendar date with a
simultaneously resolved `now` (same ambient instant `env`). -/
theorem C6_today_is_midnight_of_now (env : Env) (alloc oid : Nat) (tz : Timezone)
    (ns : Option String) :
    ∃ dNow dToday : DateTime,
      (Builtins.from_defaults oid [] [] ns (Option.some tz)).getitem env alloc "now"
        = Except.ok (LookupResult.value (PyVal.datetime dNow), alloc) ∧
      (Builtins.from_defaults oid [] [] ns (Option.some tz)).getitem env alloc "today"
        = Except.ok (LookupResult.value (PyVal.datetime dToday), alloc) ∧
      dToday.hour = 0 ∧ dToday.minute = 0 ∧ dToday.second = 0 ∧
      dToday.microsecond = 0 ∧
      dToday.tzinfo = dNow.tzinfo ∧
      dToday.year = dNow.year ∧ dToday.month = dNow.month ∧ dToday.day = dNow.day :=
  ⟨env.nowIn tz, (env.nowIn tz).replaceMidnight,
    rfl, rfl, rfl, rfl, rfl, rfl, rfl, rfl, rfl, rfl⟩

/-- C7: the default builtin `map` (the literal callable `_builtin_map` stored
under the name `map`) eagerly materializes the ordered sequence of results —
`map(double, [1,2,3]) = [2,4,6]`, and for every total function it returns
exactly the order-preserving `List.map` — and the default builtin `filter`
(`_builtin_filter`, stored under `filter`) eagerly materializes the ordered
sub-sequence of elements satisfying the predicate —
`filter(isEven, [1,2,3,4]) = [2,4]`, and for every total boolean predicate it
returns exactly `List.filter`. -/
theorem C7_map_filter_eager_ordered (env : Env) (alloc oid : Nat) (tz : Timezone)
    (ns : Option String) :
    _builtin_map double [PyVal.int 1, PyVal.int 2, PyVal.int 3]
      = Except.ok [PyVal.int 2, PyVal.int 4, PyVal.int 6] ∧
    _builtin_filter isEven [PyVal.int 1, PyVal.int 2, PyVal.int 3, PyVal.int 4]
      = Except.ok [PyVal.int 2, PyVal.int 4] ∧
    (∀ (g : PyVal → PyVal) (l : List PyVal),
      _builtin_map (fun x => Except.ok (g x)) l = Except.ok (l.map g)) ∧
    (∀ (p : PyVal → Bool) (l : List PyVal),
      _builtin_filter (fun x => Except.ok (PyVal.bool (p x))) l
        = Except.ok (l.filter p)) ∧
    (Builtins.from_defaults oid [] [] ns (Option.some tz)).getitem env alloc "map"
      = Except.ok (LookupResult.value (PyVal.func FnName.map), alloc) ∧
    (Builtins.from_defaults oid [] [] ns (Option.some tz)).getitem env alloc "filter"
      = Except.ok (LookupResult.value (PyVal.func FnName.filter), alloc) := by
  refine ⟨rfl, rfl, ?_, ?_, rfl, rfl⟩
  · intro g l
    induction l with
    | nil => rfl
    | cons x xs ih =>
      simp only [_builtin_map, ih]
      rfl
  · intro p l
    induction l with
    | nil => rfl
    | cons x xs ih =>
      cases hp : p x with
      | true =>
        rw [List.filter_cons_of_pos hp]
        simp only [_builtin_filter, ih, hp]
        rfl
      | false =>
        rw [List.filter_cons_of_neg (by rw [hp]; exact Bool.false_ne_true)]
        simp only [_builtin_filter, ih, hp]
        rfl

/-- C8: the default aggregates satisfy the empty-sequence identities —
`sum([])` is the integer `0`, `all([])` is `True`, `any([])` is `False` —
where `sum`, `all` and `any` are the literal callables stored in the default
table under those names. -/
theorem C8_empty_aggregates (env : Env) (alloc oid : Nat) (tz : Timezone)
    (ns : Option String) :
    pySum [] = Except.ok (PyVal.int 0) ∧
    pyAll [] = PyVal.bool true ∧
    pyAny [] = PyVal.bool false ∧
    (Builtins.from_defaults oid [] [] ns (Option.some tz)).getitem env alloc "sum"
      = Except.ok (LookupResult.value (PyVal.func FnName.sum), alloc) ∧
    (Builtins.from_defaults oid [] [] ns (Option.some tz)).getitem env alloc "all"
      = Except.ok (LookupResult.value (PyVal.func FnName.all), alloc) ∧
    (Builtins.from_defaults oid [] [] ns (Option.some tz)).getitem env alloc "any"
      = Except.ok (LookupResult.value (PyVal.func FnName.any), alloc) :=
  ⟨rfl, rfl, rfl, rfl, rfl, rfl⟩

/-- C9: entry classification inspects the runtime shape of the stored value
and the mapping check wins: whenever the stored value is a `Mapping`
instance, lookup returns a child table — never the raw value itself — even
when the value is also a `BuiltinValueGenerator`, whose producer is then not
invoked (the result does not depend on the ambient world at all). -/
theorem C9_mapping_check_precedence (env : Env) (alloc : Nat) (T : Builtins)
    (n : String) (v : PyVal)
    (hv : T.values.lookup n = Option.some v) (hm : v.isMapping = true) :
    (∃ child : Builtins,
      T.getitem env alloc n = Except.ok (LookupResult.table child, alloc + 1) ∧
      child.values = v.mappingEntries) ∧
    (∀ (w : PyVal) (c : Nat),
      T.getitem env alloc n ≠ Except.ok (LookupResult.value w, c)) ∧
    (∀ env2 : Env, T.getitem env2 alloc n = T.getitem env alloc n) := by
  refine ⟨⟨_, getitem_eq_mapping env alloc hv hm, rfl⟩, ?_, ?_⟩
  · intro w c h
    rw [getitem_eq_mapping env alloc hv hm] at h
    exact absurd h (by simp)
  · intro env2
    rw [getitem_eq_mapping env2 alloc hv hm, getitem_eq_mapping env alloc hv hm]

/-- C9, witness: the theorem applied to `nestedTable` at the name `hybrid`,
whose stored value is both mapping-shaped and a generator wrapper (with a
producer that would raise if it were invoked). -/
theorem C9_witness :
    (∃ child : Builtins,
      nestedTable.getitem testEnv 5 "hybrid"
        = Except.ok (LookupResult.table child, 6) ∧
      child.values = [("b", PyVal.int 2)]) ∧
    (∀ (w : PyVal) (c : Nat),
      nestedTable.getitem testEnv 5 "hybrid" ≠ Except.ok (LookupResult.value w, c)) :=
  ⟨(C9_mapping_check_precedence testEnv 5 nestedTable "hybrid"
      (PyVal.mappingGenerator [("b", PyVal.int 2)]
        (Producer.raise (Err.typeError "never invoked"))) rfl rfl).1,
   (C9_mapping_check_precedence testEnv 5 nestedTable "hybrid"
      (PyVal.mappingGenerator [("b", PyVal.int 2)]
        (Producer.raise (Err.typeError "never invoked"))) rfl rfl).2.1⟩

/-- C10 (amended): every stored entry that is a generator wrapper (and not
mapping-shaped) is invoked before its result is returned, so lookup never
hands a stored wrapper to the caller uninvoked; the only way lookup can
return a value that is itself a generator wrapper is that a stored
generator's producer returned that wrapper as its result. -/
theorem C10_stored_wrappers_invoked (env : Env) (alloc : Nat) (T : Builtins)
    (n : String) :
    (∀ p : Producer, T.values.lookup n = Option.some (PyVal.generator p) →
      T.getitem env alloc n =
        (runProducer env p T).map (fun v => (LookupResult.value v, alloc))) ∧
    (∀ (v : PyVal) (c : Nat),
      T.getitem env alloc n = Except.ok (LookupResult.value v, c) →
      v.isGenerator = true →
      ∃ p : Producer, T.values.lookup n = Option.some (PyVal.generator p) ∧
        runProducer env p T = Except.ok v) := by
  refine ⟨fun p hp => getitem_eq_generator env alloc hp, ?_⟩
  intro v c h hg
  cases hl : T.values.lookup n with
  | none =>
    rw [getitem_eq_none env alloc hl] at h
    exact absurd h (by simp)
  | some w =>
    by_cases hm : w.isMapping
    · rw [getitem_eq_mapping env alloc hl hm] at h
      exact absurd h (by simp)
    · rw [Bool.not_eq_true] at hm
      by_cases hgw : w.isGenerator
      · obtain ⟨p, rfl⟩ := eq_generator_of_not_mapping hm hgw
        rw [getitem_eq_generator env alloc hl] at h
        cases hr : runProducer env p T with
        | ok u =>
          rw [hr] at h
          simp only [Except.map, Except.ok.injEq, Prod.mk.injEq,
            LookupResult.value.injEq] at h
          exact ⟨p, rfl, by rw [hr, h.1]⟩
        | error e =>
          rw [hr] at h
          exact absurd h (by simp [Except.map])
      · rw [Bool.not_eq_true] at hgw
        rw [getitem_eq_literal env alloc hl hm hgw] at h
        simp only [Except.ok.injEq, Prod.mk.injEq, LookupResult.value.injEq] at h
        rw [← h.1] at hg
        exact absurd hg (by rw [hgw]; exact Bool.false_ne_true)

/-- C10, counterexample to the claim as stated: in `wrapperReturningTable`
the stored generator's producer returns another `BuiltinValueGenerator`
wrapper, and lookup hands that wrapper to the caller, so a lookup result can
be a generator-wrapper instance. -/
theorem C10_counterexample :
    wrapperReturningTable.getitem testEnv 0 "x"
      = Except.ok (LookupResult.value (PyVal.generator Producer.now), 0) ∧
    (PyVal.generator Producer.now).isGenerator = true :=
  ⟨rfl, rfl⟩

/-- C10, witness: the amended theorem applied to `wrapperReturningTable`
recovers the stored generator whose producer returned the escaping wrapper. -/
theorem C10_witness :
    ∃ p : Producer,
      wrapperReturningTable.values.lookup "x"
        = Option.some (PyVal.generator p) ∧
      runProducer testEnv p wrapperReturningTable
        = Except.ok (PyVal.generator Producer.now) :=
  (C10_stored_wrappers_invoked testEnv 0 wrapperReturningTable "x").2
    (PyVal.generator Producer.now) 0 rfl rfl

end RuleEngine

